import Mathlib

/-!
Shallow embedding of cryptowelder/metric.py (class MetricWelder).

Modelling conventions:
* Python Decimal values are modelled as exact rationals (ℚ); nullable
  decimals as Option ℚ.
* Python datetimes are modelled at minute granularity by a calendar
  record DT (proleptic Gregorian, the calendar `datetime` uses); a
  timedelta in minutes is applied by converting to minutes-since-epoch
  and back.  Timezones are not modelled: all datetimes denote absolute
  instants, so `astimezone` and `replace(tzinfo=...)` are identities and
  `replace(second=0, microsecond=0)` is the identity at this granularity.
* The defaultdict-of-dict price table is modelled as an association list
  of association lists; the stored value is `Option ℚ` exactly as the
  Python code stores possibly-None prices.
* Exceptions raised by the storage collaborator are modelled with
  `Except String`; the try/except blocks of the builders become explicit
  catch branches.
-/

/-- Calendar timestamp at minute granularity (second/microsecond are 0
throughout the code paths modelled here). -/
structure DT where
  year : ℤ
  month : ℤ
  day : ℤ
  hour : ℤ
  minute : ℤ
deriving DecidableEq, Repr

/-- Days from civil date (proleptic Gregorian), the algorithm used by
calendar libraries; epoch 1970-01-01 = day 0. -/
def daysFromCivil (y0 m d : ℤ) : ℤ :=
  let y := if m ≤ 2 then y0 - 1 else y0
  let era := Int.fdiv y 400
  let yoe := y - era * 400
  let doy := (153 * (m + (if m > 2 then -3 else 9)) + 2) / 5 + d - 1
  let doe := yoe * 365 + yoe / 4 - yoe / 100 + doy
  era * 146097 + doe - 719468

/-- Civil date from days since 1970-01-01 (inverse of daysFromCivil). -/
def civilFromDays (z0 : ℤ) : ℤ × ℤ × ℤ :=
  let z := z0 + 719468
  let era := Int.fdiv z 146097
  let doe := z - era * 146097
  let yoe := (doe - doe / 1460 + doe / 36524 - doe / 146096) / 365
  let y := yoe + era * 400
  let doy := doe - (365 * yoe + yoe / 4 - yoe / 100)
  let mp := (5 * doy + 2) / 153
  let d := doy - (153 * mp + 2) / 5 + 1
  let m := mp + (if mp < 10 then 3 else -9)
  (if m ≤ 2 then y + 1 else y, m, d)

/-- Minutes since the epoch of a DT. -/
def toMin (t : DT) : ℤ :=
  daysFromCivil t.year t.month t.day * 1440 + t.hour * 60 + t.minute

/-- DT from minutes since the epoch. -/
def fromMin (n : ℤ) : DT :=
  let d := Int.fdiv n 1440
  let r := n - d * 1440
  let c := civilFromDays d
  ⟨c.1, c.2.1, c.2.2, r / 60, r % 60⟩

/-- Model of `t - timedelta(minutes=k)`. -/
def subMinutes (t : DT) (k : ℤ) : DT := fromMin (toMin t - k)

/-- Model of `t + timedelta(minutes=k)`. -/
def addMinutes (t : DT) (k : ℤ) : DT := fromMin (toMin t + k)

/-- Model of `t.replace(microsecond=0, second=0, minute=0, hour=0)`. -/
def startOfDay (t : DT) : DT := { t with hour := 0, minute := 0 }

/-- Inner dict of the price table: instrument code → stored price
(the stored value may itself be None, as in the Python code). -/
abbrev CodeMap := List (String × Option ℚ)

/-- Outer defaultdict of the price table: site → inner dict. -/
abbrev PriceTable := List (String × CodeMap)

/-- Dict assignment `m[code] = p` on the inner dict. -/
def setCode : CodeMap → String → Option ℚ → CodeMap
  | [], code, p => [(code, p)]
  | (c, q) :: rest, code, p =>
      if c = code then (c, p) :: rest else (c, q) :: setCode rest code p

/-- Assignment `prices[site][code] = p` on the defaultdict(dict). -/
def setPrice : PriceTable → String → String → Option ℚ → PriceTable
  | [], site, code, p => [(site, [(code, p)])]
  | (s, m) :: rest, site, code, p =>
      if s = site then (s, setCode m code p) :: rest
      else (s, m) :: setPrice rest site code p

/-- Lookup `m.get(code)` on the inner dict (None when the key is absent). -/
def getCode : CodeMap → String → Option (Option ℚ)
  | [], _ => none
  | (c, p) :: rest, code => if c = code then some p else getCode rest code

/-- Lookup `prices.get(site)` on the outer dict. -/
def getSite : PriceTable → String → Option CodeMap
  | [], _ => none
  | (s, m) :: rest, site => if s = site then some m else getSite rest site

/-- Combined lookup `prices.get(site, dict()).get(code)`: None when the
site is absent, the code is absent, or the stored value is None. -/
def getPrice (t : PriceTable) (site code : String) : Option ℚ :=
  match getSite t site with
  | none => none
  | some m => (getCode m code).join

/-- Quote row (table `t_ticker`): nullable ask/bid/last prices and the
quote time. -/
structure Ticker where
  tk_site : String
  tk_code : String
  tk_ask : Option ℚ
  tk_bid : Option ℚ
  tk_ltp : Option ℚ
  tk_time : DT
deriving DecidableEq, Repr

/-- Product reference row: display name and optional expiry. -/
structure Product where
  pr_disp : String
  pr_expr : Option DT
deriving DecidableEq, Repr

/-- Evaluation chain row: up to two (site, code) legs. -/
structure Evaluation where
  ev_ticker_site : Option String
  ev_ticker_code : Option String
  ev_convert_site : Option String
  ev_convert_code : Option String
deriving DecidableEq, Repr

/-- Joined ticker fetch result: quote plus nullable product and
evaluation chain. -/
structure TickerDto where
  ticker : Ticker
  product : Option Product
  fund : Option Evaluation
deriving DecidableEq, Repr

/-- Output metric row. -/
structure Metric where
  mc_type : String
  mc_name : String
  mc_time : DT
  mc_amnt : ℚ
deriving DecidableEq, Repr

/-- Per-record price of `_calculate_prices`: each of ask/bid/ltp is a
candidate iff non-zero (a None field is also no candidate); two or more
candidates give the mean of the first two in [ask, bid, ltp] order, one
candidate gives that value, zero candidates give None. -/
def candidate_price (tk : Ticker) : Option ℚ :=
  let ask := if tk.tk_ask = some 0 then none else tk.tk_ask
  let bid := if tk.tk_bid = some 0 then none else tk.tk_bid
  let ltp := if tk.tk_ltp = some 0 then none else tk.tk_ltp
  match ([ask, bid, ltp] : List (Option ℚ)).reduceOption with
  | a :: b :: _ => some ((a + b) * (1 / 2 : ℚ))
  | [a] => some a
  | [] => none

/-- MetricWelder._calculate_prices: fold the batch into the
defaultdict-of-dict table, assigning `prices[site][code] = price` for
every record (also when the computed price is None). -/
def calculate_prices (tickers : List TickerDto) : PriceTable :=
  tickers.foldl
    (fun t dto => setPrice t dto.ticker.tk_site dto.ticker.tk_code (candidate_price dto.ticker)) []

/-- MetricWelder._calculate_evaluation: None chain fails; each configured
leg (both site and code non-None) is looked up, failing on a missing or
zero price; unconfigured legs are identity. -/
def calculate_evaluation (evaluation : Option Evaluation) (prices : PriceTable) : Option ℚ :=
  match evaluation with
  | none => none
  | some ev =>
    let afterTicker : Option ℚ :=
      match ev.ev_ticker_site, ev.ev_ticker_code with
      | some site, some code =>
        match getPrice prices site code with
        | none => none
        | some p => if p = 0 then none else some ((1 : ℚ) * p)
      | _, _ => some 1
    match afterTicker with
    | none => none
    | some acc =>
      match ev.ev_convert_site, ev.ev_convert_code with
      | some site, some code =>
        match getPrice prices site code with
        | none => none
        | some p => if p = 0 then none else some (acc * p)
      | _, _ => some acc

/-- Default of the `ticker_threshold` property (minutes). -/
def default_ticker_threshold : ℤ := 3

/-- MetricWelder._convert_ticker: staleness filter, price lookup, null
product filter, expiry filter, evaluation rate, then the metric. -/
def convert_ticker (threshold_minutes : ℤ) (timestamp : DT) (prices : PriceTable)
    (dto : TickerDto) : Option Metric :=
  let threshold_cutoff := subMinutes timestamp threshold_minutes
  if toMin dto.ticker.tk_time < toMin threshold_cutoff then none
  else
    match getPrice prices dto.ticker.tk_site dto.ticker.tk_code, dto.product with
    | some price, some product =>
      if price = 0 then none
      else if (match product.pr_expr with
               | some e => decide (toMin e < toMin timestamp)
               | none => false) then none
      else
        match calculate_evaluation dto.fund prices with
        | none => none
        | some rate => some ⟨"ticker", product.pr_disp, timestamp, price * rate⟩
    | _, _ => none

/-- Account reference row. -/
structure Account where
  ac_disp : String
deriving DecidableEq, Repr

/-- Balance row: nullable amount. -/
structure Balance where
  bc_amnt : Option ℚ
deriving DecidableEq, Repr

/-- Joined balance fetch result. -/
structure BalanceDto where
  balance : Balance
  account : Option Account
  evaluation : Option Evaluation
deriving DecidableEq, Repr

/-- Position row: nullable fund-denominated and instrument-denominated
quantities. -/
structure Position where
  ps_fund : Option ℚ
  ps_inst : Option ℚ
deriving DecidableEq, Repr

/-- Joined position fetch result with the two evaluation chains. -/
structure PositionDto where
  position : Position
  product : Option Product
  fund : Option Evaluation
  inst : Option Evaluation
deriving DecidableEq, Repr

/-- Joined transaction fetch result: net and gross quantities plus the
two evaluation chains. -/
structure TxDto where
  tx_net_inst : Option ℚ
  tx_net_fund : Option ℚ
  tx_grs_fund : Option ℚ
  product : Option Product
  ev_inst : Option Evaluation
  ev_fund : Option Evaluation
deriving DecidableEq, Repr

/-- Body of the per-record loop of process_balance: skip when account,
amount or rate is None, else emit the balance metric. -/
def convert_balance (timestamp : DT) (prices : PriceTable) (dto : BalanceDto) : Option Metric :=
  match dto.account, dto.balance.bc_amnt, calculate_evaluation dto.evaluation prices with
  | some account, some amount, some rate =>
      some ⟨"balance", account.ac_disp, timestamp, amount * rate⟩
  | _, _, _ => none

/-- Body of the first per-record loop of process_position (ps_fund and
the "fund" chain, kind position@upl). -/
def convert_position_upl (timestamp : DT) (prices : PriceTable) (dto : PositionDto) :
    Option Metric :=
  match dto.product, dto.position.ps_fund, calculate_evaluation dto.fund prices with
  | some product, some amount, some rate =>
      some ⟨"position@upl", product.pr_disp, timestamp, amount * rate⟩
  | _, _, _ => none

/-- Body of the second per-record loop of process_position (ps_inst and
the "inst" chain, kind position@qty). -/
def convert_position_qty (timestamp : DT) (prices : PriceTable) (dto : PositionDto) :
    Option Metric :=
  match dto.product, dto.position.ps_inst, calculate_evaluation dto.inst prices with
  | some product, some amount, some rate =>
      some ⟨"position@qty", product.pr_disp, timestamp, amount * rate⟩
  | _, _, _ => none

/-- Metric batch built by process_position: the position@upl loop over
all records followed by the position@qty loop over all records. -/
def process_position_metrics (timestamp : DT) (prices : PriceTable)
    (values : List PositionDto) : List Metric :=
  values.filterMap (convert_position_upl timestamp prices)
    ++ values.filterMap (convert_position_qty timestamp prices)

/-- Default of the `offset` property of process_transaction_trade
(minutes). -/
def default_trade_offset : ℤ := 9 * 60

/-- Window starts of process_transaction_trade, in the dict insertion
order DAY, MTD, YTD: shift by the offset, truncate to day / first of
month / first of year, shift back. -/
def trade_windows (offset : ℤ) (timestamp : DT) : List (String × DT) :=
  let t := addMinutes timestamp offset
  [("DAY", subMinutes (startOfDay t) offset),
   ("MTD", subMinutes (startOfDay { t with day := 1 }) offset),
   ("YTD", subMinutes (startOfDay { t with day := 1, month := 1 }) offset)]

/-- Body of the per-record loop of process_transaction_trade: skip when
the product, either net quantity, or either resolved rate is None, else
emit amount = net_inst * inst_rate + net_fund * fund_rate. -/
def convert_trade (key : String) (timestamp : DT) (prices : PriceTable) (dto : TxDto) :
    Option Metric :=
  match dto.product, dto.tx_net_inst, dto.tx_net_fund,
        calculate_evaluation dto.ev_inst prices, calculate_evaluation dto.ev_fund prices with
  | some product, some iq, some fq, some ir, some fr =>
      some ⟨"trade@" ++ key, product.pr_disp, timestamp, iq * ir + fq * fr⟩
  | _, _, _, _, _ => none

/-- Metric batch built by process_transaction_trade given the per-window
fetch results: one metric per surviving record per window, no
aggregation. -/
def process_transaction_trade_metrics (fetchTx : DT → DT → List TxDto) (prices : PriceTable)
    (offset : ℤ) (timestamp : DT) : List Metric :=
  (trade_windows offset timestamp).flatMap
    (fun kv => (fetchTx kv.2 timestamp).filterMap (convert_trade kv.1 timestamp prices))

/-- Window starts of process_transaction_volume, in the dict insertion
order 12H, 01D, 30D. -/
def volume_windows (timestamp : DT) : List (String × DT) :=
  [("12H", subMinutes timestamp (12 * 60)),
   ("01D", subMinutes timestamp (24 * 60)),
   ("30D", subMinutes timestamp (30 * 1440))]

/-- Body of the per-record loop of process_transaction_volume. -/
def convert_volume (key : String) (timestamp : DT) (prices : PriceTable) (dto : TxDto) :
    Option Metric :=
  match dto.product, dto.tx_grs_fund, calculate_evaluation dto.ev_fund prices with
  | some product, some amount, some rate =>
      some ⟨"volume@" ++ key, product.pr_disp, timestamp, amount * rate⟩
  | _, _, _ => none

/-- Metric batch built by process_transaction_volume. -/
def process_transaction_volume_metrics (fetchTx : DT → DT → List TxDto) (prices : PriceTable)
    (timestamp : DT) : List Metric :=
  (volume_windows timestamp).flatMap
    (fun kv => (fetchTx kv.2 timestamp).filterMap (convert_volume kv.1 timestamp prices))

/-- Default `intervals` tuple of purge_metric: (hours threshold,
preserved minute offsets) per tier. -/
def default_intervals : List (ℤ × List ℤ) :=
  [(24 * 365 * 8, []),
   (48, [0]),
   (36, [0, 30]),
   (24, [0, 15, 30, 45]),
   (12, [0, 5, 10, 15, 20, 25, 30, 35, 40, 45, 50, 55])]

/-- Loop of purge_metric over the enumerated tiers: a None property
value skips the tier, otherwise one delete call is issued with
cutoff = now - max(hours, 1) hours and the tier's preserved minutes. -/
def purge_loop (getp : ℕ → ℤ → Option ℤ) (now : DT) : ℕ → List (ℤ × List ℤ) →
    List (DT × List ℤ)
  | _, [] => []
  | idx, entry :: rest =>
    match getp idx entry.1 with
    | none => purge_loop getp now (idx + 1) rest
    | some hours => (subMinutes now (60 * max hours 1), entry.2) :: purge_loop getp now (idx + 1) rest

/-- MetricWelder.purge_metric: the sequence of delete_metrics calls
(cutoff, exclude_minutes) issued over the default tiers, where
`getp idx default` models the get_property call for the idx-th tier
resolved to an optional integer. -/
def purge_metric (getp : ℕ → ℤ → Option ℤ) (now : DT) : List (DT × List ℤ) :=
  purge_loop getp now 0 default_intervals


/-- True when the leg guard `site is not None and code is not None` holds. -/
def legConfigured (s c : Option String) : Bool := s.isSome && c.isSome

/-- The evaluation call as made inside the builders, where the price
table argument may be None (when process_ticker failed): a None chain
returns None before touching the table; a chain with at least one
configured leg raises (AttributeError) when the table is None. -/
def calcEvalE (evaluation : Option Evaluation) (pricesOpt : Option PriceTable) :
    Except String (Option ℚ) :=
  match evaluation with
  | none => Except.ok none
  | some ev =>
    if legConfigured ev.ev_ticker_site ev.ev_ticker_code
        || legConfigured ev.ev_convert_site ev.ev_convert_code then
      match pricesOpt with
      | none => Except.error "AttributeError"
      | some prices => Except.ok (calculate_evaluation (some ev) prices)
    else Except.ok (some 1)

/-- Storage/context collaborator with fallible fetches: the `Except`
error stands for an exception raised by the call. -/
structure ExnCtx where
  fetch_tickers : DT → Bool → Except String (List TickerDto)
  fetch_balances : DT → Except String (List BalanceDto)
  fetch_positions : DT → Except String (List PositionDto)
  fetch_transactions : DT → DT → Except String (List TxDto)
  get_property_int : String → ℤ → ℤ

/-- Kind tag of a save_metrics call, naming the builder that issued it. -/
inductive BuilderKind
  | tickerK
  | balanceK
  | positionK
  | tradeK
  | volumeK
deriving DecidableEq, Repr

/-- One save_metrics call: issuing builder, snapshot timestamp, batch. -/
structure Call where
  kind : BuilderKind
  time : DT
  metrics : List Metric
deriving DecidableEq, Repr

/-- Run a fallible per-record converter over a fetched list, collecting
the emitted metrics; an exception from any record aborts the batch. -/
def convertAllE (f : α → Except String (Option Metric)) : List α → Except String (List Metric)
  | [] => Except.ok []
  | x :: rest => do
      let m ← f x
      let ms ← convertAllE f rest
      Except.ok (match m with | some metric => metric :: ms | none => ms)

/-- Balance loop body with the possibly-None table. -/
def convert_balance_e (timestamp : DT) (pricesOpt : Option PriceTable) (dto : BalanceDto) :
    Except String (Option Metric) := do
  let rate ← calcEvalE dto.evaluation pricesOpt
  Except.ok (match dto.account, dto.balance.bc_amnt, rate with
    | some account, some amount, some r =>
        some ⟨"balance", account.ac_disp, timestamp, amount * r⟩
    | _, _, _ => none)

/-- First position loop body with the possibly-None table. -/
def convert_position_upl_e (timestamp : DT) (pricesOpt : Option PriceTable) (dto : PositionDto) :
    Except String (Option Metric) := do
  let rate ← calcEvalE dto.fund pricesOpt
  Except.ok (match dto.product, dto.position.ps_fund, rate with
    | some product, some amount, some r =>
        some ⟨"position@upl", product.pr_disp, timestamp, amount * r⟩
    | _, _, _ => none)

/-- Second position loop body with the possibly-None table. -/
def convert_position_qty_e (timestamp : DT) (pricesOpt : Option PriceTable) (dto : PositionDto) :
    Except String (Option Metric) := do
  let rate ← calcEvalE dto.inst pricesOpt
  Except.ok (match dto.product, dto.position.ps_inst, rate with
    | some product, some amount, some r =>
        some ⟨"position@qty", product.pr_disp, timestamp, amount * r⟩
    | _, _, _ => none)

/-- Trade loop body with the possibly-None table (inst rate computed
before fund rate, as in the source). -/
def convert_trade_e (key : String) (timestamp : DT) (pricesOpt : Option PriceTable) (dto : TxDto) :
    Except String (Option Metric) := do
  let ir ← calcEvalE dto.ev_inst pricesOpt
  let fr ← calcEvalE dto.ev_fund pricesOpt
  Except.ok (match dto.product, dto.tx_net_inst, dto.tx_net_fund, ir, fr with
    | some product, some iq, some fq, some ir1, some fr1 =>
        some ⟨"trade@" ++ key, product.pr_disp, timestamp, iq * ir1 + fq * fr1⟩
    | _, _, _, _, _ => none)

/-- Volume loop body with the possibly-None table. -/
def convert_volume_e (key : String) (timestamp : DT) (pricesOpt : Option PriceTable) (dto : TxDto) :
    Except String (Option Metric) := do
  let rate ← calcEvalE dto.ev_fund pricesOpt
  Except.ok (match dto.product, dto.tx_grs_fund, rate with
    | some product, some amount, some r =>
        some ⟨"volume@" ++ key, product.pr_disp, timestamp, amount * r⟩
    | _, _, _ => none)

/-- MetricWelder.process_ticker: fetch (include_expired=True), build the
price table, convert each quote, save; any exception is caught and
logged, and the table built so far (None when the fetch raised) is
returned either way. -/
def process_ticker_run (ctx : ExnCtx) (timestamp : DT) : Option PriceTable × List Call :=
  match ctx.fetch_tickers timestamp true with
  | Except.error _ => (none, [])
  | Except.ok values =>
    let prices := calculate_prices values
    let threshold := ctx.get_property_int "ticker_threshold" default_ticker_threshold
    let metrics := values.filterMap (convert_ticker threshold timestamp prices)
    (some prices, [⟨BuilderKind.tickerK, timestamp, metrics⟩])

/-- MetricWelder.process_balance: body in Except, exception caught at
the builder boundary (no save call in that case). -/
def process_balance_run (ctx : ExnCtx) (timestamp : DT) (pricesOpt : Option PriceTable) :
    List Call :=
  match (do
      let values ← ctx.fetch_balances timestamp
      convertAllE (convert_balance_e timestamp pricesOpt) values :
      Except String (List Metric)) with
  | Except.error _ => []
  | Except.ok metrics => [⟨BuilderKind.balanceK, timestamp, metrics⟩]

/-- MetricWelder.process_position: both loops in Except, exception
caught at the builder boundary. -/
def process_position_run (ctx : ExnCtx) (timestamp : DT) (pricesOpt : Option PriceTable) :
    List Call :=
  match (do
      let values ← ctx.fetch_positions timestamp
      let ms1 ← convertAllE (convert_position_upl_e timestamp pricesOpt) values
      let ms2 ← convertAllE (convert_position_qty_e timestamp pricesOpt) values
      Except.ok (ms1 ++ ms2) : Except String (List Metric)) with
  | Except.error _ => []
  | Except.ok metrics => [⟨BuilderKind.positionK, timestamp, metrics⟩]

/-- Per-window loop of process_transaction_trade in Except. -/
def trade_windows_e (ctx : ExnCtx) (timestamp : DT) (pricesOpt : Option PriceTable) :
    List (String × DT) → Except String (List Metric)
  | [] => Except.ok []
  | (key, start) :: rest => do
      let values ← ctx.fetch_transactions start timestamp
      let ms ← convertAllE (convert_trade_e key timestamp pricesOpt) values
      let more ← trade_windows_e ctx timestamp pricesOpt rest
      Except.ok (ms ++ more)

/-- MetricWelder.process_transaction_trade: windows from the offset
property, loop in Except, exception caught at the builder boundary. -/
def process_trade_run (ctx : ExnCtx) (timestamp : DT) (pricesOpt : Option PriceTable) :
    List Call :=
  let offset := ctx.get_property_int "offset" default_trade_offset
  match trade_windows_e ctx timestamp pricesOpt (trade_windows offset timestamp) with
  | Except.error _ => []
  | Except.ok metrics => [⟨BuilderKind.tradeK, timestamp, metrics⟩]

/-- Per-window loop of process_transaction_volume in Except. -/
def volume_windows_e (ctx : ExnCtx) (timestamp : DT) (pricesOpt : Option PriceTable) :
    List (String × DT) → Except String (List Metric)
  | [] => Except.ok []
  | (key, start) :: rest => do
      let values ← ctx.fetch_transactions start timestamp
      let ms ← convertAllE (convert_volume_e key timestamp pricesOpt) values
      let more ← volume_windows_e ctx timestamp pricesOpt rest
      Except.ok (ms ++ more)

/-- MetricWelder.process_transaction_volume: loop in Except, exception
caught at the builder boundary. -/
def process_volume_run (ctx : ExnCtx) (timestamp : DT) (pricesOpt : Option PriceTable) :
    List Call :=
  match volume_windows_e ctx timestamp pricesOpt (volume_windows timestamp) with
  | Except.error _ => []
  | Except.ok metrics => [⟨BuilderKind.volumeK, timestamp, metrics⟩]

/-- One timestamp of process_metric: process_ticker inline, then the
four builders against the returned table.  Thread interleaving only
permutes the order of the save calls; the call values are those listed
here. -/
def snapshot_run (ctx : ExnCtx) (timestamp : DT) : List Call :=
  let r := process_ticker_run ctx timestamp
  r.2 ++ process_balance_run ctx timestamp r.1
      ++ process_position_run ctx timestamp r.1
      ++ process_trade_run ctx timestamp r.1
      ++ process_volume_run ctx timestamp r.1

/-- MetricWelder.process_metric: count from the `timestamp` property,
one snapshot per minute walking backward from the (minute-aligned)
base time. -/
def process_metric_run (ctx : ExnCtx) (base_time : DT) (default_count : ℤ) : List Call :=
  let count := (ctx.get_property_int "timestamp" default_count).toNat
  ((List.range count).map (fun i => subMinutes base_time i)).flatMap (snapshot_run ctx)

/-! Lemmas about the association-list dictionaries. -/

theorem getCode_setCode (m : CodeMap) (code c : String) (p : Option ℚ) :
    getCode (setCode m code p) c = if code = c then some p else getCode m c := by
  induction m with
  | nil => simp [setCode, getCode]
  | cons head rest ih =>
    obtain ⟨c0, q⟩ := head
    by_cases h1 : c0 = code
    · subst h1
      by_cases h2 : c0 = c <;> simp [setCode, getCode, h2]
    · simp only [setCode, if_neg h1]
      by_cases h2 : c0 = c
      · subst h2
        simp [getCode, if_neg (Ne.symm h1)]
      · simp [getCode, h2, ih]

theorem getPrice_cons (s0 : String) (m : CodeMap) (rest : PriceTable) (s c : String) :
    getPrice ((s0, m) :: rest) s c
      = if s0 = s then (getCode m c).join else getPrice rest s c := by
  by_cases h : s0 = s <;> simp [getPrice, getSite, h]

theorem getPrice_setPrice (t : PriceTable) (site code s c : String) (p : Option ℚ) :
    getPrice (setPrice t site code p) s c
      = if site = s ∧ code = c then p else getPrice t s c := by
  induction t with
  | nil =>
    by_cases h1 : site = s
    · subst h1
      by_cases h2 : code = c <;>
        simp [setPrice, getPrice, getSite, getCode, h2]
    · simp [setPrice, getPrice, getSite, h1]
  | cons head rest ih =>
    obtain ⟨s0, m⟩ := head
    by_cases h1 : s0 = site
    · subst h1
      by_cases h2 : s0 = s
      · subst h2
        rw [setPrice, if_pos rfl, getPrice_cons, if_pos rfl, getPrice_cons, if_pos rfl,
          getCode_setCode]
        by_cases h3 : code = c <;> simp [h3]
      · rw [setPrice, if_pos rfl, getPrice_cons, if_neg h2, getPrice_cons, if_neg h2]
        simp [h2]
    · rw [setPrice, if_neg h1]
      by_cases h2 : s0 = s
      · subst h2
        rw [getPrice_cons, if_pos rfl, getPrice_cons, if_pos rfl,
          if_neg (fun hx : site = s0 ∧ code = c => h1 hx.1.symm)]
      · rw [getPrice_cons, if_neg h2, getPrice_cons, if_neg h2, ih]

theorem getPrice_calculate_prices_foldl (l : List TickerDto) (init : PriceTable) (s c : String) :
    getPrice (l.foldl
        (fun t dto => setPrice t dto.ticker.tk_site dto.ticker.tk_code (candidate_price dto.ticker))
        init) s c
      = match l.reverse.find? (fun d => d.ticker.tk_site == s && d.ticker.tk_code == c) with
        | some d => candidate_price d.ticker
        | none => getPrice init s c := by
  induction l generalizing init with
  | nil => simp
  | cons d rest ih =>
    simp only [List.foldl_cons, List.reverse_cons, List.find?_append, ih]
    cases hfind : rest.reverse.find? (fun d => d.ticker.tk_site == s && d.ticker.tk_code == c) with
    | some d1 => simp [Option.or]
    | none =>
      simp only [Option.or, getPrice_setPrice]
      by_cases hm : (d.ticker.tk_site == s && d.ticker.tk_code == c) = true
      · have hand := (Bool.and_eq_true _ _).mp hm
        have h1 : d.ticker.tk_site = s := beq_iff_eq.mp hand.1
        have h2 : d.ticker.tk_code = c := beq_iff_eq.mp hand.2
        simp [List.find?_cons, hm, h1, h2]
      · have h12 : ¬(d.ticker.tk_site = s ∧ d.ticker.tk_code = c) := by
          intro hx
          apply hm
          simp [hx.1, hx.2]
        simp [List.find?_cons, hm, h12]

/-- Formalisation of the claim's words (for comparison with the source
definition calculate_prices): a record whose three prices are all
absent/zero contributes no entry at all — no assignment is made for its
key. -/
def claimed_calculate_prices (tickers : List TickerDto) : PriceTable :=
  tickers.foldl
    (fun t dto =>
      match candidate_price dto.ticker with
      | none => t
      | some p => setPrice t dto.ticker.tk_site dto.ticker.tk_code (some p)) []

/-- First counterexample record: ask=10 only. -/
def cexDto1 : TickerDto :=
  ⟨⟨"s", "c", some 10, none, none, ⟨2026, 1, 1, 0, 0⟩⟩, none, none⟩

/-- Second counterexample record, same (site, code): all prices
zero or absent. -/
def cexDto2 : TickerDto :=
  ⟨⟨"s", "c", some 0, some 0, none, ⟨2026, 1, 1, 0, 0⟩⟩, none, none⟩

/-- C1 counterexample: by the claim, the all-zero second record
contributes no entry, so the table would still yield 10 for ("s", "c");
the source code instead assigns a None price for the key, so the lookup
yields nothing. -/
theorem c1_counterexample :
    getPrice (calculate_prices [cexDto1, cexDto2]) "s" "c" = none ∧
    getPrice (claimed_calculate_prices [cexDto1, cexDto2]) "s" "c" = some 10 := by
  constructor <;> rfl

/-- Claim-side list of present candidate prices of a quote, in the fixed
priority order [ask, bid, last-traded], a field being present iff
non-null and non-zero. -/
def present_prices (tk : Ticker) : List ℚ :=
  ([if tk.tk_ask = some 0 then none else tk.tk_ask,
    if tk.tk_bid = some 0 then none else tk.tk_bid,
    if tk.tk_ltp = some 0 then none else tk.tk_ltp] : List (Option ℚ)).reduceOption

/-- C1 (amended): a lookup in the constructed table observes the last
record of the batch for that (site, code) — last-write-wins, where a
record with no present price also wins, storing a null that makes the
lookup yield nothing; the stored price of that record is the mean of
the first two present prices (priority order [ask, bid, last-traded])
when at least two are present, the single present price when exactly
one is, and null when none is. -/
theorem c1_rate_table (batch : List TickerDto) (s c : String) :
    (getPrice (calculate_prices batch) s c
      = (batch.reverse.find? (fun d => d.ticker.tk_site == s && d.ticker.tk_code == c)).bind
          (fun d => candidate_price d.ticker))
    ∧ ∀ tk : Ticker,
        candidate_price tk
          = match present_prices tk with
            | a :: b :: _ => some ((a + b) / 2)
            | [a] => some a
            | [] => none := by
  constructor
  · rw [calculate_prices, getPrice_calculate_prices_foldl]
    cases batch.reverse.find? (fun d => d.ticker.tk_site == s && d.ticker.tk_code == c) with
    | some d => simp
    | none => simp [getPrice, getSite]
  · intro tk
    rw [candidate_price, present_prices]
    cases hc : ([if tk.tk_ask = some 0 then none else tk.tk_ask,
            if tk.tk_bid = some 0 then none else tk.tk_bid,
            if tk.tk_ltp = some 0 then none else tk.tk_ltp] : List (Option ℚ)).reduceOption with
    | nil => rfl
    | cons a rest =>
      cases rest with
      | nil => rfl
      | cons b tail =>
        show some ((a + b) * (1 / 2)) = some ((a + b) / 2)
        rw [mul_one_div]

/-- Claim-side list of configured legs of a chain, ticker leg first. -/
def chain_legs (ev : Evaluation) : List (String × String) :=
  (match ev.ev_ticker_site, ev.ev_ticker_code with
   | some s, some c => [(s, c)]
   | _, _ => []) ++
  (match ev.ev_convert_site, ev.ev_convert_code with
   | some s, some c => [(s, c)]
   | _, _ => [])

/-- Claim-side lookup of one leg: fails when the stored price is
absent (site missing, code missing or null value) or zero. -/
def resolve_leg (prices : PriceTable) (leg : String × String) : Option ℚ :=
  match getPrice prices leg.1 leg.2 with
  | none => none
  | some p => if p = 0 then none else some p

/-- Claim-side resolution of all configured legs: None as soon as one
leg fails, else the list of leg prices. -/
def resolve_legs (prices : PriceTable) : List (String × String) → Option (List ℚ)
  | [] => some []
  | leg :: rest =>
    match resolve_leg prices leg with
    | none => none
    | some p => (resolve_legs prices rest).map (fun ps => p :: ps)

/-- C2: resolving a present chain against a table equals resolving the
configured legs in order (ticker first, convert second) — None as soon
as any leg's site is absent, code is absent, or price is null or zero —
and otherwise the product of the leg prices starting from 1 (so exactly
1 when no legs are configured). -/
theorem c2_evaluator (ev : Evaluation) (prices : PriceTable) :
    calculate_evaluation (some ev) prices
      = (resolve_legs prices (chain_legs ev)).map
          (fun ps => ps.foldl (fun a b => a * b) (1 : ℚ)) := by
  obtain ⟨ts, tc, cs, cc⟩ := ev
  cases ts <;> cases tc <;> cases cs <;> cases cc <;>
    (simp only [calculate_evaluation, chain_legs, resolve_legs, resolve_leg, List.nil_append,
       List.cons_append, List.singleton_append];
     repeat' split;
     all_goals (first | rfl | simp_all [List.foldl_cons, List.foldl_nil]))

/-- C9: a null chain resolves to None (failure), not to the identity
multiplier; a present chain whose two legs are both unconfigured
resolves to exactly 1. -/
theorem c9_null_chain (prices : PriceTable) (ev : Evaluation) :
    calculate_evaluation none prices = none
    ∧ ((ev.ev_ticker_site = none ∨ ev.ev_ticker_code = none) →
       (ev.ev_convert_site = none ∨ ev.ev_convert_code = none) →
       calculate_evaluation (some ev) prices = some 1) := by
  obtain ⟨ts, tc, cs, cc⟩ := ev
  refine ⟨rfl, fun h1 h2 => ?_⟩
  cases ts <;> cases tc <;> cases cs <;> cases cc <;> simp_all [calculate_evaluation]

/-- C9 witness: the empty table with the all-unconfigured chain. -/
theorem c9_witness :
    calculate_evaluation none [] = none
    ∧ calculate_evaluation (some ⟨none, none, none, none⟩) [] = some 1 :=
  ⟨(c9_null_chain [] ⟨none, none, none, none⟩).1,
   (c9_null_chain [] ⟨none, none, none, none⟩).2 (Or.inl rfl) (Or.inl rfl)⟩

/-- C10: a leg missing its site or its code (in particular one with
exactly one of the two set) is skipped as identity: the resolution
equals the resolution of the chain with that leg cleared, so no lookup
of that leg happens and it can never cause failure. -/
theorem c10_partial_leg (prices : PriceTable) (ev : Evaluation) :
    ((ev.ev_ticker_site = none ∨ ev.ev_ticker_code = none) →
      calculate_evaluation (some ev) prices
        = calculate_evaluation
            (some { ev with ev_ticker_site := none, ev_ticker_code := none }) prices)
    ∧ ((ev.ev_convert_site = none ∨ ev.ev_convert_code = none) →
      calculate_evaluation (some ev) prices
        = calculate_evaluation
            (some { ev with ev_convert_site := none, ev_convert_code := none }) prices) := by
  obtain ⟨ts, tc, cs, cc⟩ := ev
  constructor
  · intro h1
    cases ts <;> cases tc <;> simp_all [calculate_evaluation]
  · intro h2
    cases cs <;> cases cc <;> simp_all [calculate_evaluation]

/-- C10 witness: a ticker leg with only the site set is identity even
though its site is absent from the (empty) table. -/
theorem c10_witness :
    calculate_evaluation (some ⟨some "s", none, none, none⟩) []
      = calculate_evaluation (some ⟨none, none, none, none⟩) []
    ∧ calculate_evaluation (some ⟨some "s", none, none, none⟩) [] = some 1 :=
  ⟨(c10_partial_leg [] ⟨some "s", none, none, none⟩).1 (Or.inr rfl), rfl⟩

/-- C3: a quote strictly older than the threshold cutoff is rejected; a
record whose product expiry is strictly before the snapshot timestamp is
rejected; every emitted ticker metric has amount = table price times
evaluation rate; and a quote exactly at the cutoff passes the staleness
filter (it is emitted whenever the remaining gates pass); the
threshold property defaults to 3 minutes. -/
theorem c3_ticker (θ : ℤ) (ts : DT) (prices : PriceTable) (dto : TickerDto) :
    (toMin dto.ticker.tk_time < toMin (subMinutes ts θ) →
      convert_ticker θ ts prices dto = none)
    ∧ (∀ product e, dto.product = some product → product.pr_expr = some e →
        toMin e < toMin ts → convert_ticker θ ts prices dto = none)
    ∧ (∀ m, convert_ticker θ ts prices dto = some m →
        ∃ p r product, getPrice prices dto.ticker.tk_site dto.ticker.tk_code = some p
          ∧ calculate_evaluation dto.fund prices = some r
          ∧ dto.product = some product
          ∧ m = ⟨"ticker", product.pr_disp, ts, p * r⟩)
    ∧ (∀ p product r, dto.ticker.tk_time = subMinutes ts θ →
        getPrice prices dto.ticker.tk_site dto.ticker.tk_code = some p → p ≠ 0 →
        dto.product = some product → product.pr_expr = none →
        calculate_evaluation dto.fund prices = some r →
        convert_ticker θ ts prices dto = some ⟨"ticker", product.pr_disp, ts, p * r⟩)
    ∧ default_ticker_threshold = 3 := by
  refine ⟨?_, ?_, ?_, ?_, rfl⟩
  · intro h
    simp [convert_ticker, h]
  · intro product e hp he hlt
    by_cases hst : toMin dto.ticker.tk_time < toMin (subMinutes ts θ)
    · simp [convert_ticker, hst]
    · cases hgp : getPrice prices dto.ticker.tk_site dto.ticker.tk_code with
      | none => simp [convert_ticker, hst, hgp, hp]
      | some p =>
        by_cases hz : p = 0
        · simp [convert_ticker, hst, hgp, hp, hz]
        · simp [convert_ticker, hst, hgp, hp, hz, he, hlt]
  · intro m hm
    by_cases hst : toMin dto.ticker.tk_time < toMin (subMinutes ts θ)
    · simp [convert_ticker, hst] at hm
    · cases hgp : getPrice prices dto.ticker.tk_site dto.ticker.tk_code with
      | none =>
        cases hp : dto.product with
        | none => simp [convert_ticker, hst, hgp, hp] at hm
        | some product => simp [convert_ticker, hst, hgp, hp] at hm
      | some p =>
        cases hp : dto.product with
        | none => simp [convert_ticker, hst, hgp, hp] at hm
        | some product =>
          by_cases hz : p = 0
          · simp [convert_ticker, hst, hgp, hp, hz] at hm
          · by_cases hex : (match product.pr_expr with
                | some e => decide (toMin e < toMin ts)
                | none => false) = true
            · simp [convert_ticker, hst, hgp, hp, hz, hex] at hm
            · cases hr : calculate_evaluation dto.fund prices with
              | none => simp [convert_ticker, hst, hgp, hp, hz, hex, hr] at hm
              | some r =>
                refine ⟨p, r, product, rfl, rfl, rfl, ?_⟩
                simp [convert_ticker, hst, hgp, hp, hz, hex, hr] at hm
                exact hm.symm
  · intro p product r htime hgp hz hp he hr
    have hst : ¬ toMin dto.ticker.tk_time < toMin (subMinutes ts θ) := by
      rw [htime]
      exact lt_irrefl _
    simp [convert_ticker, hst, hgp, hp, hz, he, hr]

/-- Concrete snapshot timestamp used by the C3 witness. -/
def c3ts : DT := ⟨2026, 10, 12, 12, 0⟩

/-- Concrete ticker record used by the C3 witness: quote exactly at the
default 3-minute cutoff, ask=101 the only present price, no expiry,
chain with no configured legs. -/
def c3dto : TickerDto :=
  ⟨⟨"sA", "BTC", some 101, some 0, some 0, ⟨2026, 10, 12, 11, 57⟩⟩,
   some ⟨"BTC", none⟩, some ⟨none, none, none, none⟩⟩

/-- C3 witness: the boundary quote is emitted with amount = 101 * 1. -/
theorem c3_witness :
    convert_ticker 3 c3ts (calculate_prices [c3dto]) c3dto
      = some ⟨"ticker", "BTC", c3ts, 101 * 1⟩ :=
  (c3_ticker 3 c3ts (calculate_prices [c3dto]) c3dto).2.2.2.1 101 ⟨"BTC", none⟩ 1
    (by decide) (by decide) (by decide) rfl rfl (by decide)

/-- C4: for each position record the position@upl metric (fund quantity
times fund-chain rate) and the position@qty metric (instrument quantity
times inst-chain rate) are emitted independently — each iff its own
quantity is non-null, its own chain resolves and the record's product
is non-null — and a record whose fund side resolves while its inst side
does not yields exactly the one position@upl metric. -/
theorem c4_position (ts : DT) (prices : PriceTable) (dto : PositionDto) :
    (∀ product a r, dto.product = some product → dto.position.ps_fund = some a →
      calculate_evaluation dto.fund prices = some r →
      convert_position_upl ts prices dto = some ⟨"position@upl", product.pr_disp, ts, a * r⟩)
    ∧ (dto.product = none ∨ dto.position.ps_fund = none ∨
        calculate_evaluation dto.fund prices = none →
      convert_position_upl ts prices dto = none)
    ∧ (∀ product a r, dto.product = some product → dto.position.ps_inst = some a →
      calculate_evaluation dto.inst prices = some r →
      convert_position_qty ts prices dto = some ⟨"position@qty", product.pr_disp, ts, a * r⟩)
    ∧ (dto.product = none ∨ dto.position.ps_inst = none ∨
        calculate_evaluation dto.inst prices = none →
      convert_position_qty ts prices dto = none)
    ∧ (∀ product a r, dto.product = some product → dto.position.ps_fund = some a →
      calculate_evaluation dto.fund prices = some r →
      (dto.position.ps_inst = none ∨ calculate_evaluation dto.inst prices = none) →
      process_position_metrics ts prices [dto]
        = [⟨"position@upl", product.pr_disp, ts, a * r⟩]) := by
  refine ⟨?_, ?_, ?_, ?_, ?_⟩
  · intro product a r hp ha hr
    simp [convert_position_upl, hp, ha, hr]
  · intro h
    rcases h with h | h | h <;> simp [convert_position_upl, h]
  · intro product a r hp ha hr
    simp [convert_position_qty, hp, ha, hr]
  · intro h
    rcases h with h | h | h <;> simp [convert_position_qty, h]
  · intro product a r hp ha hr hqty
    have h1 : convert_position_upl ts prices dto
        = some ⟨"position@upl", product.pr_disp, ts, a * r⟩ := by
      simp [convert_position_upl, hp, ha, hr]
    have h2 : convert_position_qty ts prices dto = none := by
      rcases hqty with h | h <;> simp [convert_position_qty, h]
    simp [process_position_metrics, h1, h2]

/-- Concrete position record used by the C4 witness: fund quantity 5
with a resolvable (empty) fund chain, inst quantity present but an inst
chain pointing at a code missing from the table. -/
def c4dto : PositionDto :=
  ⟨⟨some 5, some 7⟩, some ⟨"P", none⟩, some ⟨none, none, none, none⟩,
   some ⟨some "sX", some "missing", none, none⟩⟩

/-- C4 witness: the record yields exactly one metric, the position@upl
one, with amount 5 * 1. -/
theorem c4_witness :
    process_position_metrics ⟨2026, 1, 2, 3, 4⟩ [] [c4dto]
      = [⟨"position@upl", "P", ⟨2026, 1, 2, 3, 4⟩, 5 * 1⟩] :=
  (c4_position ⟨2026, 1, 2, 3, 4⟩ [] c4dto).2.2.2.2 ⟨"P", none⟩ 5 1 rfl rfl (by decide)
    (Or.inr (by decide))

/-- Transaction record used by the C5 counterexample: both net
quantities present and both chains resolvable (no configured legs, so
rate 1), but a null product reference. -/
def c5dto : TxDto :=
  ⟨some 1, some 2, some 3, none, some ⟨none, none, none, none⟩, some ⟨none, none, none, none⟩⟩

/-- C5 counterexample: a record with both net quantities non-null and
both chains resolving (to 1) yields no metric, because its product
reference is null — a skip condition the claim does not list. -/
theorem c5_counterexample :
    calculate_evaluation c5dto.ev_inst [] = some 1
    ∧ calculate_evaluation c5dto.ev_fund [] = some 1
    ∧ c5dto.tx_net_inst = some 1
    ∧ c5dto.tx_net_fund = some 2
    ∧ convert_trade "DAY" ⟨2026, 1, 1, 0, 0⟩ [] c5dto = none :=
  ⟨rfl, rfl, rfl, rfl, rfl⟩

/-- C5 (amended): trade metrics are computed over the windows DAY, MTD,
YTD in that order (anchored to the configurable offset, default 540
minutes), each record of each window yielding its own trade@KEY metric
with amount = net_inst * inst_rate + net_fund * fund_rate, both chains
resolved independently; the record yields nothing when either chain
fails, either net quantity is null, or its product reference is null. -/
theorem c5_trade (fetchTx : DT → DT → List TxDto) (prices : PriceTable) (offset : ℤ) (ts : DT) :
    (process_transaction_trade_metrics fetchTx prices offset ts
      = (trade_windows offset ts).flatMap
          (fun kv => (fetchTx kv.2 ts).filterMap (convert_trade kv.1 ts prices)))
    ∧ (trade_windows offset ts).map Prod.fst = ["DAY", "MTD", "YTD"]
    ∧ (∀ key dto product iq fq ir fr, dto.product = some product →
        dto.tx_net_inst = some iq → dto.tx_net_fund = some fq →
        calculate_evaluation dto.ev_inst prices = some ir →
        calculate_evaluation dto.ev_fund prices = some fr →
        convert_trade key ts prices dto
          = some ⟨"trade@" ++ key, product.pr_disp, ts, iq * ir + fq * fr⟩)
    ∧ (∀ key dto, dto.tx_net_inst = none ∨ dto.tx_net_fund = none ∨
        calculate_evaluation dto.ev_inst prices = none ∨
        calculate_evaluation dto.ev_fund prices = none ∨ dto.product = none →
        convert_trade key ts prices dto = none)
    ∧ default_trade_offset = 540 := by
  refine ⟨rfl, rfl, ?_, ?_, rfl⟩
  · intro key dto product iq fq ir fr hp hiq hfq hir hfr
    simp [convert_trade, hp, hiq, hfq, hir, hfr]
  · intro key dto h
    rcases h with h | h | h | h | h <;> simp [convert_trade, h]

/-- Transaction record used by the C5 witness: net quantities 2 and 3,
chains with no configured legs. -/
def c5dtoW : TxDto :=
  ⟨some 2, some 3, some 4, some ⟨"T", none⟩, some ⟨none, none, none, none⟩,
   some ⟨none, none, none, none⟩⟩

/-- C5 witness: the record yields its trade@DAY metric with amount
2 * 1 + 3 * 1. -/
theorem c5_witness :
    convert_trade "DAY" ⟨2026, 1, 1, 0, 0⟩ [] c5dtoW
      = some ⟨"trade@" ++ "DAY", "T", ⟨2026, 1, 1, 0, 0⟩, 2 * 1 + 3 * 1⟩ :=
  (c5_trade (fun _ _ => []) [] 540 ⟨2026, 1, 1, 0, 0⟩).2.2.1 "DAY" c5dtoW ⟨"T", none⟩
    2 3 1 1 rfl rfl rfl (by decide) (by decide)

theorem purge_loop_eq (getp : ℕ → ℤ → Option ℤ) (now : DT) (idx : ℕ) (l : List (ℤ × List ℤ)) :
    purge_loop getp now idx l
      = (l.enumFrom idx).filterMap
          (fun p => (getp p.1 p.2.1).map
            (fun hours => (subMinutes now (60 * max hours 1), p.2.2))) := by
  induction l generalizing idx with
  | nil => rfl
  | cons e rest ih =>
    obtain ⟨h0, mins⟩ := e
    cases hg : getp idx h0 with
    | none => simp [purge_loop, List.enumFrom, hg, ih]
    | some hours => simp [purge_loop, List.enumFrom, hg, ih]

/-- C6: the purge sweep walks the default tiers in their fixed order —
8 (365-day) years keeping nothing, 48h keeping minute :00, 36h keeping
:00/:30, 24h keeping the quarter hours, 12h keeping every 5th minute —
issuing exactly one delete per tier whose (possibly overridden)
threshold is non-null, with cutoff = now - max(hours, 1) hours and that
tier's preserved minutes, and skipping (no delete call) every tier
whose threshold resolves to null. -/
theorem c6_purge (getp : ℕ → ℤ → Option ℤ) (now : DT) :
    purge_metric getp now
      = (default_intervals.enum).filterMap
          (fun p => (getp p.1 p.2.1).map
            (fun hours => (subMinutes now (60 * max hours 1), p.2.2)))
    ∧ default_intervals
      = [(24 * 365 * 8, []), (48, [0]), (36, [0, 30]), (24, [0, 15, 30, 45]),
         (12, [0, 5, 10, 15, 20, 25, 30, 35, 40, 45, 50, 55])] :=
  ⟨purge_loop_eq getp now 0 default_intervals, rfl⟩

/-- True for save calls not issued by the position builder. -/
def not_position (call : Call) : Bool :=
  match call.kind with
  | BuilderKind.positionK => false
  | _ => true

/-- True for save calls not issued by the balance builder. -/
def not_balance (call : Call) : Bool :=
  match call.kind with
  | BuilderKind.balanceK => false
  | _ => true

theorem filter_position_run (ctx : ExnCtx) (ts : DT) (popt : Option PriceTable) :
    (process_position_run ctx ts popt).filter not_position = [] := by
  rw [process_position_run]
  split <;> simp [not_position]

theorem filter_balance_run (ctx : ExnCtx) (ts : DT) (popt : Option PriceTable) :
    (process_balance_run ctx ts popt).filter not_balance = [] := by
  rw [process_balance_run]
  split <;> simp [not_balance]

/-- True for save calls issued neither by the trade nor by the volume
builder (the two builders that share fetch_transactions). -/
def not_trade_volume (call : Call) : Bool :=
  match call.kind with
  | BuilderKind.tradeK => false
  | BuilderKind.volumeK => false
  | _ => true

theorem filter_trade_run (ctx : ExnCtx) (ts : DT) (popt : Option PriceTable) :
    (process_trade_run ctx ts popt).filter not_trade_volume = [] := by
  rw [process_trade_run]
  split <;> simp [not_trade_volume]

theorem filter_volume_run (ctx : ExnCtx) (ts : DT) (popt : Option PriceTable) :
    (process_volume_run ctx ts popt).filter not_trade_volume = [] := by
  rw [process_volume_run]
  split <;> simp [not_trade_volume]

/-- True for save calls issued by the balance builder. -/
def is_balance (call : Call) : Bool :=
  match call.kind with
  | BuilderKind.balanceK => true
  | _ => false

/-- Ticker record of the C7 counterexample: fresh quote, ask=101 only,
no expiry, fund chain with no configured legs. -/
def c7tdto : TickerDto :=
  ⟨⟨"sA", "BTC", some 101, some 0, some 0, ⟨2026, 5, 6, 7, 5⟩⟩,
   some ⟨"BTC", none⟩, some ⟨none, none, none, none⟩⟩

/-- Balance record of the C7 counterexample: amount 3, chain whose
ticker leg (sA, BTC) must be resolved against the shared price table. -/
def c7bdto : BalanceDto :=
  ⟨⟨some 3⟩, some ⟨"A"⟩, some ⟨some "sA", some "BTC", none, none⟩⟩

/-- C7 collaborator whose every fetch succeeds. -/
def c7good : ExnCtx :=
  ⟨fun _ _ => Except.ok [c7tdto], fun _ => Except.ok [c7bdto], fun _ => Except.ok [],
   fun _ _ => Except.ok [], fun _ d => d⟩

/-- The same collaborator with only fetch_tickers raising. -/
def c7bad : ExnCtx :=
  { c7good with fetch_tickers := fun _ _ => Except.error "boom" }

/-- C7 counterexample: with identical collaborator responses except that
fetch_tickers raises, the balance fetch still succeeds with a
convertible record, yet the snapshot persists no balance call at all
(the null price table raises inside the balance builder before its
save), while the non-raising run persists exactly one — so a failure in
the ticker kind does prevent another kind's metrics from being
computed and persisted. -/
theorem c7_counterexample :
    c7bad.fetch_balances ⟨2026, 5, 6, 7, 8⟩ = Except.ok [c7bdto]
    ∧ (snapshot_run c7bad ⟨2026, 5, 6, 7, 8⟩).filter is_balance = []
    ∧ ((snapshot_run c7good ⟨2026, 5, 6, 7, 8⟩).filter is_balance).length = 1 :=
  ⟨rfl, rfl, rfl⟩

/-- C7 (amended): every exception raised inside a builder is swallowed
at that builder's boundary and never propagates (a raising
fetch_tickers yields the (None, no-calls) result, a raising
fetch_positions yields no calls); a failure in one non-ticker kind
leaves every other kind's save calls identical to the non-failing run
(shown for the position, balance and transaction fetches, the last
feeding both the trade and the volume builders); a ticker failure is
excluded, since the null table it leaves behind can abort the other
builders (see the counterexample). -/
theorem c7_fault_isolation (ctx : ExnCtx) (e1 e2 e3 e4 : String) (ts : DT) :
    (process_ticker_run { ctx with fetch_tickers := fun _ _ => Except.error e1 } ts
        = (none, []))
    ∧ (∀ popt, process_position_run
        { ctx with fetch_positions := fun _ => Except.error e2 } ts popt = [])
    ∧ (snapshot_run { ctx with fetch_positions := fun _ => Except.error e2 } ts).filter
          not_position
        = (snapshot_run ctx ts).filter not_position
    ∧ (snapshot_run { ctx with fetch_balances := fun _ => Except.error e3 } ts).filter
          not_balance
        = (snapshot_run ctx ts).filter not_balance
    ∧ (snapshot_run { ctx with fetch_transactions := fun _ _ => Except.error e4 } ts).filter
          not_trade_volume
        = (snapshot_run ctx ts).filter not_trade_volume := by
  refine ⟨rfl, fun popt => rfl, ?_, ?_, ?_⟩
  · simp only [snapshot_run, List.filter_append, filter_position_run]
    rfl
  · simp only [snapshot_run, List.filter_append, filter_balance_run]
    rfl
  · simp only [snapshot_run, List.filter_append, filter_trade_run, filter_volume_run]
    rfl

/-- C8: the snapshot pipeline is a function of the collaborator's
responses: two runs whose fetches, clock inputs and properties agree
produce the same save calls with the same Metric values. -/
theorem c8_determinism (ctxA ctxB : ExnCtx) (base : DT) (dc : ℤ)
    (ht : ctxA.fetch_tickers = ctxB.fetch_tickers)
    (hb : ctxA.fetch_balances = ctxB.fetch_balances)
    (hp : ctxA.fetch_positions = ctxB.fetch_positions)
    (hx : ctxA.fetch_transactions = ctxB.fetch_transactions)
    (hg : ctxA.get_property_int = ctxB.get_property_int) :
    process_metric_run ctxA base dc = process_metric_run ctxB base dc := by
  obtain ⟨t1, b1, p1, x1, g1⟩ := ctxA
  obtain ⟨t2, b2, p2, x2, g2⟩ := ctxB
  simp only at ht hb hp hx hg
  subst ht hb hp hx hg
  rfl

/-- Collaborator used by the C8 witness: every fetch succeeds with an
empty list, properties resolve to their defaults. -/
def c8ctx : ExnCtx :=
  ⟨fun _ _ => Except.ok [], fun _ => Except.ok [], fun _ => Except.ok [],
   fun _ _ => Except.ok [], fun _ d => d⟩

/-- C8 witness: two identical runs coincide, and evaluate to the five
per-kind save calls for the single timestamp. -/
theorem c8_witness :
    process_metric_run c8ctx ⟨2026, 5, 6, 7, 8⟩ 1 = process_metric_run c8ctx ⟨2026, 5, 6, 7, 8⟩ 1
    ∧ process_metric_run c8ctx ⟨2026, 5, 6, 7, 8⟩ 1
      = [⟨BuilderKind.tickerK, ⟨2026, 5, 6, 7, 8⟩, []⟩,
         ⟨BuilderKind.balanceK, ⟨2026, 5, 6, 7, 8⟩, []⟩,
         ⟨BuilderKind.positionK, ⟨2026, 5, 6, 7, 8⟩, []⟩,
         ⟨BuilderKind.tradeK, ⟨2026, 5, 6, 7, 8⟩, []⟩,
         ⟨BuilderKind.volumeK, ⟨2026, 5, 6, 7, 8⟩, []⟩] :=
  ⟨c8_determinism c8ctx c8ctx ⟨2026, 5, 6, 7, 8⟩ 1 rfl rfl rfl rfl rfl, by decide⟩
